import Mathlib

/-!
Shallow embedding of `src/server.py` (websocket chat relay: authentication,
active-session registry, message routing).

Modelling conventions:
- Python dicts keyed by jid become insertion-ordered association lists
  (`Registry`); `lookup`, `updateEntry`, `removeEntry` model `d[k]`,
  `d[k] = v` and `del d[k]` on a dict with unique keys.
- A client record dict is `ClientRecord`; the keys `websocket` and
  `publickey` are absent in the static `registered_clients` table and only
  added at registration, so they are `Option`-valued with `none` = absent.
- External capabilities are parameters: `checkpw` stands for
  `bcrypt.checkpw` (taking the stored hash and the provided password) and
  `clean` for `bleach.clean` (the sanitize capability).
- A JSON field read with `.get` is `Option`-valued (`none` = key absent).
- Raising an exception (e.g. `bleach.clean(None)` raising `TypeError`, or
  `registered_clients[jid]` raising `KeyError`) is modelled by returning
  `none` from the embedded operation.
- Sending on a websocket is recorded as a `Send` value (channel handle of
  the target paired with the JSON-object message); an operation's sends are
  returned as a list in the order the source performs them.
-/

/-- One client record dict of `server.py`. The static `registered_clients`
entries carry only `nickname`, `jid` and `password` (the bcrypt hash);
`add_clients_to_active_connections` later stores `websocket` and
`publickey` keys into the same dict, hence those two fields are
`Option`-valued with `none` meaning the key is absent. -/
structure ClientRecord where
  nickname : String
  jid : String
  password : String
  websocket : Option Nat := none
  publickey : Option String := none
deriving DecidableEq

/-- An insertion-ordered association list, modelling a Python dict keyed by
jid (`registered_clients`, `active_connections`). -/
abbrev Registry := List (String × ClientRecord)

/-- Dict read `d.get(k)` / membership `k in d`: first (unique) binding of `k`. -/
def lookup : Registry → String → Option ClientRecord
  | [], _ => none
  | (k', v) :: rest, k => if k' = k then some v else lookup rest k

/-- Dict write `d[k] = v`: replaces the binding in place if the key exists,
appends it otherwise (Python dicts keep the insertion position on update). -/
def updateEntry : Registry → String → ClientRecord → Registry
  | [], k, v => [(k, v)]
  | (k', v') :: rest, k, v =>
      if k' = k then (k, v) :: rest else (k', v') :: updateEntry rest k v

/-- Dict delete `del d[k]`: removes the binding of `k` (all of them; keys
are unique in every reachable registry, so this agrees with `del`). -/
def removeEntry : Registry → String → Registry
  | [], _ => []
  | (k', v) :: rest, k =>
      if k' = k then removeEntry rest k else (k', v) :: removeEntry rest k

/-- The static `registered_clients` table of `server.py` (lines 29-60). -/
def registered_clients : Registry :=
  [ ("c1@s5",
     { nickname := "pemba", jid := "c1@s5",
       password := "$2b$12$qWoDtedvx8jurr/2XVex7.raoa7tqIofxPYrx1.oy6qmDpHavkYwa" }),
    ("c2@s5",
     { nickname := "saurab", jid := "c2@s5",
       password := "$2b$12$suJThyymiIVez4nLyUjpPurPq/E3BBTRdDGMnxADdbIjdst5kbKvS" }),
    ("c3@s5",
     { nickname := "roshan", jid := "c3@s5",
       password := "$2b$12$Cz8bUuhzYyoHMdbvZLlcs.Cc0nOSR3VzAHOFrnF3ic6unrxZ6rwoG" }),
    ("c4@s5",
     { nickname := "bidur", jid := "c4@s5",
       password := "$2b$12$FwNWm33zvTOFtK6yrUXW0uMrMdu9jGR9AY7RgKgcm0sEzWjbhquOK" }),
    ("test1@s5",
     { nickname := "test1", jid := "test1@s5",
       password := "$2b$12$JMN7bSNLOQw9CvefBs79rOsQYefOhnFfxt1zzKVsiKF1tw7ha5URG" }),
    ("test2@s5",
     { nickname := "test2", jid := "test2@s5",
       password := "$2b$12$rFzKEMeiJISlYvU1CMzSg.8ZdUn3vbfKtBRBmjQuJ3vpQV5zOY12u" }) ]

/-- The mutable server state: `registered_clients` (which `server.py`
mutates at registration) and `active_connections`. -/
structure SrvState where
  store : Registry
  active : Registry
deriving DecidableEq

/-- The state at process start: the static table, no active connection. -/
def initialState : SrvState := { store := registered_clients, active := [] }

/-- Embeds `verify_password(stored_hash, provided_password)` (lines 21-25).
`checkpw` is the external `bcrypt.checkpw` capability, taking the stored
hash and the provided password. -/
def verify_password (checkpw : String → String → Bool)
    (stored_hash provided_password : String) : Bool :=
  checkpw stored_hash provided_password

/-- Embeds `authenticate_user(jid, password)` (lines 137-144): looks the
jid up in `registered_clients`, delegates to `verify_password` when
present, returns `False` when absent. -/
def authenticate_user (checkpw : String → String → Bool) (store : Registry)
    (jid password : String) : Bool :=
  match lookup store jid with
  | some user => verify_password checkpw user.password password
  | none => false

/-- Embeds `add_clients_to_active_connections(jid, websocket, publickey)`
(lines 147-155): fetches `registered_clients[jid]` (a `KeyError` on an
absent jid is modelled by `none`), stores the `websocket` and `publickey`
keys into that same record, and registers it in `active_connections`.
Because the Python code mutates the shared dict object, the updated record
appears in both the store and the active registry. Returns the new state
and the registered record (the function's return value). -/
def add_clients_to_active_connections (s : SrvState) (jid : String)
    (websocket : Nat) (publickey : Option String) :
    Option (SrvState × ClientRecord) :=
  match lookup s.store jid with
  | none => none
  | some user =>
      let user' := { user with websocket := some websocket,
                               publickey := publickey }
      some ({ store := updateEntry s.store jid user',
              active := updateEntry s.active jid user' }, user')

/-- A reply sent back on the connecting client's websocket:
`Reply.success m n` is the dict `tag: success, message: m, nickname: n`
built by `send_login_success`, and `Reply.error m` is the dict
`tag: error, message: m` built by `send_error`. -/
inductive Reply where
  | success (message : String) (nickname : String)
  | error (message : String)
deriving DecidableEq

/-- The login request fields `handle_client` reads from
`data['presence'][0]` via `.get`: `jid`, `password`, `publickey`
(`none` = key absent, which makes `bleach.clean` raise for jid/password). -/
structure LoginRequest where
  jid : Option String
  password : Option String
  publickey : Option String
deriving DecidableEq

/-- Embeds the login phase of `handle_client` (lines 74-103): sanitizes
`jid` and `password` with the `clean` capability (`bleach.clean`; cleaning
an absent value raises `TypeError`, modelled by `none`), then validates in
order — empty jid, jid longer than 64, empty password, password longer
than 64 — short-circuiting on the first failure with an error reply, then
authenticates; on success registers the session and replies with the
success message carrying the registered record's nickname. Returns the
resulting state and the single reply sent on this connection's websocket
(`websocket` is this connection's channel handle). -/
def handle_login (checkpw : String → String → Bool)
    (clean : String → String) (s : SrvState) (websocket : Nat)
    (req : LoginRequest) : Option (SrvState × Reply) :=
  match req.jid, req.password with
  | some j, some p =>
      let jid := clean j
      let password := clean p
      if jid = "" then some (s, .error "* JID cannot be empty")
      else if jid.length > 64 then
        some (s, .error "* JID should be less than 64 characters")
      else if password = "" then some (s, .error "* Password cannot be empty")
      else if password.length > 64 then
        some (s, .error "* Password should be less than 64 characters")
      else if authenticate_user checkpw s.store jid password then
        match add_clients_to_active_connections s jid websocket req.publickey with
        | some (s', user) => some (s', .success "Login successful" user.nickname)
        | none => none
      else some (s, .error "Incorrect email and password")
  | _, _ => none

/-- An inbound post-login envelope, the parsed JSON dict `data` of
`process_message`; every field is read with `.get`, so all are
`Option`-valued. The `from` key is `fromJid` (`from` is a Lean keyword). -/
structure Envelope where
  tag : Option String
  fromJid : Option String
  toJid : Option String
  info : Option String
  filename : Option String
deriving DecidableEq

/-- The outbound message dict built by `create_message_format`
(lines 210-222). The `filename` key exists only for the `file` tag, hence
the nested `Option`: outer `none` = key absent, inner value is
`data.get('filename')` which may itself be absent. -/
structure MessageFormat where
  tag : String
  fromJid : Option String
  toJid : Option String
  info : Option String
  filename : Option (Option String) := none
deriving DecidableEq

/-- One websocket send performed by the router: the target's channel
handle (the `websocket` value stored in its active record) paired with the
message. -/
abbrev Send := Option Nat × MessageFormat

/-- Embeds `create_message_format(data, tag)` (lines 210-222): copies the
raw `from`, `to` and `info` fields and, for the `file` tag only, also the
`filename` field. -/
def create_message_format (data : Envelope) (tag : String) : MessageFormat :=
  let message : MessageFormat :=
    { tag := tag, fromJid := data.fromJid, toJid := data.toJid, info := data.info }
  if tag = "file" then { message with filename := some data.filename }
  else message

/-- Embeds `broadcast(message)` (lines 237-242): sends the message to
every active connection's websocket, in registry order. -/
def broadcast (active : Registry) (message : MessageFormat) : List Send :=
  active.map (fun kv => (kv.2.websocket, message))

/-- Embeds `route_message(target_jid, message)` (lines 225-234): a
`public` target broadcasts; a target with an active session gets exactly
one send on its stored websocket; anything else (unknown, offline or
absent target) is dropped with a log line and no send. -/
def route_message (active : Registry) (target_jid : Option String)
    (message : MessageFormat) : List Send :=
  if target_jid = some "public" then broadcast active message
  else
    match target_jid with
    | some t =>
        match lookup active t with
        | some c => [(c.websocket, message)]
        | none => []
    | none => []

/-- The guard `data.get('from') in active_connections` of
`process_message`: an absent `from` key yields `False`. -/
def sender_active (active : Registry) (data : Envelope) : Bool :=
  match data.fromJid with
  | some j => (lookup active j).isSome
  | none => false

/-- Embeds `process_message(data)` (lines 191-207). If the sender is not
active the envelope is dropped with a log line. Otherwise the `info` field
is sanitized (`bleach.clean(None)` raises `TypeError` when the key is
absent, modelled by `none`); a `message` tag with non-empty sanitized info
and a `file` tag are formatted and routed, anything else is dropped with a
log line. The function never mutates `active_connections`, so the registry
is returned unchanged together with the sends performed. -/
def process_message (clean : String → String) (active : Registry)
    (data : Envelope) : Option (Registry × List Send) :=
  if sender_active active data then
    match data.info with
    | none => none
    | some raw =>
        let info := clean raw
        if data.tag = some "message" ∧ info ≠ "" then
          some (active,
            route_message active data.toJid (create_message_format data "message"))
        else if data.tag = some "file" then
          some (active,
            route_message active data.toJid (create_message_format data "file"))
        else some (active, [])
  else some (active, [])

/-- Embeds `cleanup_user(jid)` (lines 269-275), run in the `finally` block
of `handle_client` with the jid the connection sanitized at login (`none`
when the connection never got one): deletes the jid's entry from
`active_connections` when present, otherwise a no-op. The presence
rebroadcast it triggers is a pure send effect and is not modelled (no
claim concerns it). -/
def cleanup_user (s : SrvState) (jid : Option String) : SrvState :=
  match jid with
  | some j =>
      if (lookup s.active j).isSome then
        { s with active := removeEntry s.active j }
      else s
  | none => s

/-- A concrete instance of the sanitize capability that agrees with
`bleach.clean` on plain markup input: `bleach.clean` HTML-escapes
disallowed markup, e.g. it maps the string of '<', 'x', '>' to the
entity-escaped form. -/
def sanitizeEscape (s : String) : String :=
  String.join (s.data.map (fun c =>
    if c = '<' then "&lt;"
    else if c = '>' then "&gt;"
    else if c = '&' then "&amp;"
    else String.singleton c))

/-- The static part of a client record: the `nickname`, `jid` and
`password` keys that exist in `registered_clients` before any login. -/
def staticFields (r : ClientRecord) : String × String × String :=
  (r.nickname, r.jid, r.password)

/-- A sample active registry with one logged-in client on channel 1, of
the shape `add_clients_to_active_connections` produces. -/
def activeOne : Registry :=
  [("c1@s5",
    { nickname := "pemba", jid := "c1@s5",
      password := "$2b$12$qWoDtedvx8jurr/2XVex7.raoa7tqIofxPYrx1.oy6qmDpHavkYwa",
      websocket := some 1, publickey := none })]

/-- A sample active registry with two logged-in clients on channels 1
and 2. -/
def activeTwo : Registry :=
  [("c1@s5",
    { nickname := "pemba", jid := "c1@s5",
      password := "$2b$12$qWoDtedvx8jurr/2XVex7.raoa7tqIofxPYrx1.oy6qmDpHavkYwa",
      websocket := some 1, publickey := none }),
   ("c2@s5",
    { nickname := "saurab", jid := "c2@s5",
      password := "$2b$12$suJThyymiIVez4nLyUjpPurPq/E3BBTRdDGMnxADdbIjdst5kbKvS",
      websocket := some 2, publickey := none })]

/-! Registry lemmas shared by the claim theorems. -/

theorem lookup_updateEntry (l : Registry) (k : String) (v : ClientRecord)
    (k' : String) :
    lookup (updateEntry l k v) k' = if k = k' then some v else lookup l k' := by
  induction l with
  | nil => by_cases h : k = k' <;> simp [updateEntry, lookup, h]
  | cons head rest ih =>
      obtain ⟨a, b⟩ := head
      simp only [updateEntry]
      by_cases hak : a = k
      · subst hak
        by_cases h : a = k' <;> simp [lookup, h]
      · simp only [if_neg hak, lookup]
        by_cases h : a = k'
        · subst h
          have : ¬ (a = a → False) := fun hf => hf rfl
          simp [lookup, if_neg (fun hh : k = a => hak hh.symm)]
        · simp [lookup, h, ih]

theorem lookup_removeEntry (l : Registry) (k k' : String) :
    lookup (removeEntry l k) k' = if k = k' then none else lookup l k' := by
  induction l with
  | nil => simp [removeEntry, lookup]
  | cons head rest ih =>
      obtain ⟨a, b⟩ := head
      simp only [removeEntry]
      by_cases hak : a = k
      · subst hak
        by_cases h : a = k'
        · subst h; simp [ih]
        · simp [lookup, h, ih]
      · by_cases h : a = k'
        · subst h
          simp [lookup, if_neg (fun hh : a = k => hak hh), ih,
            if_neg (fun hh : k = a => hak hh.symm)]
        · simp [lookup, h, ih, hak]

theorem mem_route_message (active : Registry) (t : Option String)
    (fmt : MessageFormat) (sd : Send) (h : sd ∈ route_message active t fmt) :
    sd.2 = fmt := by
  unfold route_message at h
  split at h
  · unfold broadcast at h
    obtain ⟨kv, _, hkv⟩ := List.mem_map.mp h
    simp [← hkv]
  · rcases t with _ | t'
    · simp at h
    · rcases hl : lookup active t' with _ | c <;> simp [hl] at h
      simp [h]

theorem lookup_mem_broadcast (active : Registry) (j : String)
    (c : ClientRecord) (fmt : MessageFormat) (h : lookup active j = some c) :
    ((c.websocket, fmt) : Send) ∈ broadcast active fmt := by
  induction active with
  | nil => simp [lookup] at h
  | cons head rest ih =>
      obtain ⟨a, b⟩ := head
      simp only [lookup] at h
      by_cases hj : a = j
      · simp [hj] at h
        simp [broadcast, h]
      · simp [hj] at h
        simp [broadcast] at ih ⊢
        exact Or.inr (ih h)

/-- C4: `authenticate_user` returns false for every identity absent from
the Credential Store, and for every identity present it returns exactly
the verdict of verifying the supplied password against that identity's
stored hash (true for the correct password, false for a wrong one); it is
a pure function of the store and its arguments, with no state effect. -/
theorem authenticate_spec (checkpw : String → String → Bool)
    (store : Registry) (jid password : String) :
    (lookup store jid = none →
      authenticate_user checkpw store jid password = false) ∧
    (∀ u, lookup store jid = some u →
      authenticate_user checkpw store jid password =
        verify_password checkpw u.password password) := by
  constructor
  · intro h; simp [authenticate_user, h]
  · intro u h; simp [authenticate_user, h]

theorem authenticate_spec_witness :
    authenticate_user (fun _ _ => true) registered_clients "ghost@s5" "pw"
      = false ∧
    authenticate_user (fun _ _ => true) registered_clients "c1@s5" "pw"
      = true := by
  constructor
  · exact (authenticate_spec (fun _ _ => true) registered_clients
      "ghost@s5" "pw").1 (by decide)
  · have h := (authenticate_spec (fun _ _ => true) registered_clients
      "c1@s5" "pw").2
      { nickname := "pemba", jid := "c1@s5",
        password :=
          "$2b$12$qWoDtedvx8jurr/2XVex7.raoa7tqIofxPYrx1.oy6qmDpHavkYwa" }
      (by decide)
    simpa [verify_password] using h

/-- C7: an envelope whose `from` field is not an active session is
discarded by `process_message`: no send happens on any channel (no forward
and no reply) and the active registry is returned unchanged. -/
theorem inactive_sender_dropped (clean : String → String) (active : Registry)
    (data : Envelope) (h : sender_active active data = false) :
    process_message clean active data = some (active, []) := by
  simp [process_message, h]

theorem inactive_sender_dropped_witness :
    process_message (fun s => s)
      [("c1@s5", { nickname := "pemba", jid := "c1@s5", password := "h",
                   websocket := some 1 })]
      ⟨some "message", some "ghost@s5", some "public", some "hi", none⟩
      = some ([("c1@s5", { nickname := "pemba", jid := "c1@s5",
                           password := "h", websocket := some 1 })], []) :=
  inactive_sender_dropped _ _ _ (by decide)

/-- C10: for an envelope from an active sender, `process_message` raises
(the sanitizer is applied to the missing value, `TypeError`, modelled by
`none`) exactly when the `info` key is absent; in particular the
discard-invalid branch, and every other non-raising path, is reachable
only when `info` is present. -/
theorem missing_info_raises (clean : String → String) (active : Registry)
    (data : Envelope) (h : sender_active active data = true) :
    process_message clean active data = none ↔ data.info = none := by
  rcases hinfo : data.info with _ | raw
  · simp [process_message, h, hinfo]
  · simp only [process_message, h, if_true, hinfo]
    split_ifs <;> simp

theorem missing_info_raises_witness :
    (process_message (fun s => s)
        [("c1@s5", { nickname := "pemba", jid := "c1@s5", password := "h",
                     websocket := some 1 })]
        ⟨some "message", some "c1@s5", some "public", none, none⟩ = none)
      ↔ (⟨some "message", some "c1@s5", some "public", none, none⟩ :
          Envelope).info = none :=
  missing_info_raises _ _ _ (by decide)

/-- C5: `route_message` is decided by the target: a `public` target sends
to every active session's channel in registry order (so, whenever the
sender is active, its own channel is among the recipients); a target that
is the identity of an active session gets exactly one send, on that
session's channel and no other; any other target (unknown, offline or
absent) produces no send at all, in particular no delivery-failure
notification to the sender. -/
theorem route_by_target (active : Registry) (message : MessageFormat)
    (t j : String) (c : ClientRecord) :
    (route_message active (some "public") message =
      active.map (fun kv => (kv.2.websocket, message))) ∧
    (lookup active j = some c →
      ((c.websocket, message) : Send) ∈
        route_message active (some "public") message) ∧
    (t ≠ "public" → lookup active t = some c →
      route_message active (some t) message = [(c.websocket, message)]) ∧
    (t ≠ "public" → lookup active t = none →
      route_message active (some t) message = []) ∧
    (route_message active none message = []) := by
  refine ⟨?_, ?_, ?_, ?_, ?_⟩
  · simp [route_message, broadcast]
  · intro h
    simpa [route_message] using lookup_mem_broadcast active j c message h
  · intro ht hl
    simp [route_message, ht, hl]
  · intro ht hl
    simp [route_message, ht, hl]
  · simp [route_message]

theorem route_by_target_witness :
    (route_message
        [("c1@s5", { nickname := "pemba", jid := "c1@s5", password := "h1",
                     websocket := some 1 }),
         ("c2@s5", { nickname := "saurab", jid := "c2@s5", password := "h2",
                     websocket := some 2 })]
        (some "public")
        { tag := "message", fromJid := some "c1@s5", toJid := some "public",
          info := some "hi" } =
      [(some 1,
        { tag := "message", fromJid := some "c1@s5", toJid := some "public",
          info := some "hi" }),
       (some 2,
        { tag := "message", fromJid := some "c1@s5", toJid := some "public",
          info := some "hi" })]) ∧
    (route_message
        [("c1@s5", { nickname := "pemba", jid := "c1@s5", password := "h1",
                     websocket := some 1 }),
         ("c2@s5", { nickname := "saurab", jid := "c2@s5", password := "h2",
                     websocket := some 2 })]
        (some "c2@s5")
        { tag := "message", fromJid := some "c1@s5", toJid := some "c2@s5",
          info := some "hi" } =
      [(some 2,
        { tag := "message", fromJid := some "c1@s5", toJid := some "c2@s5",
          info := some "hi" })]) ∧
    (route_message
        [("c1@s5", { nickname := "pemba", jid := "c1@s5", password := "h1",
                     websocket := some 1 }),
         ("c2@s5", { nickname := "saurab", jid := "c2@s5", password := "h2",
                     websocket := some 2 })]
        (some "c9@s5")
        { tag := "message", fromJid := some "c1@s5", toJid := some "c9@s5",
          info := some "hi" } = []) := by
  refine ⟨?_, ?_, ?_⟩
  · have h := (route_by_target
      [("c1@s5", { nickname := "pemba", jid := "c1@s5", password := "h1",
                   websocket := some 1 }),
       ("c2@s5", { nickname := "saurab", jid := "c2@s5", password := "h2",
                   websocket := some 2 })]
      { tag := "message", fromJid := some "c1@s5", toJid := some "public",
        info := some "hi" } "c2@s5" "c2@s5"
      { nickname := "saurab", jid := "c2@s5", password := "h2",
        websocket := some 2 }).1
    simpa using h
  · exact (route_by_target _ _ "c2@s5" "c2@s5"
      { nickname := "saurab", jid := "c2@s5", password := "h2",
        websocket := some 2 }).2.2.1 (by decide) (by decide)
  · exact (route_by_target _ _ "c9@s5" "c9@s5"
      { nickname := "saurab", jid := "c2@s5", password := "h2",
        websocket := some 2 }).2.2.2.1 (by decide) (by decide)

/-- C6: tag dispatch for an envelope from an active sender with the `info`
key present: a `message` tag whose sanitized info is empty is dropped with
no send and no error reply; a `file` tag is always handed to the router as
the file format (tag, raw from, to, raw info, filename), whether or not
its info is empty; any other tag is dropped with no send and no reply. -/
theorem process_tag_dispatch (clean : String → String) (active : Registry)
    (data : Envelope) (i : String)
    (hact : sender_active active data = true) (hinfo : data.info = some i) :
    (data.tag = some "message" → clean i = "" →
      process_message clean active data = some (active, [])) ∧
    (data.tag = some "file" →
      process_message clean active data =
        some (active, route_message active data.toJid
          { tag := "file", fromJid := data.fromJid, toJid := data.toJid,
            info := data.info, filename := some data.filename })) ∧
    (data.tag ≠ some "message" → data.tag ≠ some "file" →
      process_message clean active data = some (active, [])) := by
  refine ⟨?_, ?_, ?_⟩
  · intro htag hclean
    simp [process_message, hact, hinfo, htag, hclean]
  · intro htag
    simp [process_message, hact, hinfo, htag, create_message_format]
  · intro h1 h2
    simp [process_message, hact, hinfo, h1, h2]

theorem process_tag_dispatch_witness :
    (process_message (fun s => s) activeOne
        ⟨some "message", some "c1@s5", some "public", some "", none⟩
      = some (activeOne, [])) ∧
    (process_message (fun s => s) activeOne
        ⟨some "file", some "c1@s5", some "c1@s5", some "", some "a.txt"⟩
      = some (activeOne,
          [(some 1,
            { tag := "file", fromJid := some "c1@s5", toJid := some "c1@s5",
              info := some "", filename := some (some "a.txt") })])) ∧
    (process_message (fun s => s) activeOne
        ⟨some "presence", some "c1@s5", some "public", some "hi", none⟩
      = some (activeOne, [])) := by
  refine ⟨?_, ?_, ?_⟩
  · exact (process_tag_dispatch (fun s => s) activeOne
      ⟨some "message", some "c1@s5", some "public", some "", none⟩ ""
      (by decide) rfl).1 rfl rfl
  · have h := (process_tag_dispatch (fun s => s) activeOne
      ⟨some "file", some "c1@s5", some "c1@s5", some "", some "a.txt"⟩ ""
      (by decide) rfl).2.1 rfl
    rw [h]
    decide
  · exact (process_tag_dispatch (fun s => s) activeOne
      ⟨some "presence", some "c1@s5", some "public", some "hi", none⟩ "hi"
      (by decide) rfl).2.2 (by decide) (by decide)

theorem create_message_format_info (data : Envelope) (tag : String) :
    (create_message_format data tag).info = data.info := by
  unfold create_message_format
  split <;> rfl

/-- C1 (amended): every send that `process_message` performs carries the
raw inbound `info` value unchanged — for both the `message` and the `file`
tag the routed record's `info` is `envelope.info`, not its sanitized
value; sanitization is used only for the non-emptiness gate on the
`message` tag. -/
theorem forwarded_info_is_raw (clean : String → String) (active : Registry)
    (data : Envelope) (r : Registry) (sends : List Send) (sd : Send)
    (hp : process_message clean active data = some (r, sends))
    (hm : sd ∈ sends) : sd.2.info = data.info := by
  unfold process_message at hp
  by_cases hact : sender_active active data
  · rcases hinfo : data.info with _ | raw
    · simp [hact, hinfo] at hp
    · simp only [hact, hinfo, if_true] at hp
      split_ifs at hp with h1 h2 <;>
        rw [Option.some.injEq, Prod.mk.injEq] at hp <;>
        obtain ⟨hr, hs⟩ := hp
      · rw [← hs] at hm
        rw [mem_route_message _ _ _ _ hm, create_message_format_info]
        exact hinfo
      · rw [← hs] at hm
        rw [mem_route_message _ _ _ _ hm, create_message_format_info]
        exact hinfo
      · rw [← hs] at hm
        simp at hm
  · simp [hact] at hp
    rw [hp.2] at hm
    simp at hm

theorem forwarded_info_is_raw_witness :
    ((some 1,
      { tag := "message", fromJid := some "c1@s5", toJid := some "public",
        info := some "<x>" }) : Send).2.info
      = (⟨some "message", some "c1@s5", some "public", some "<x>", none⟩ :
          Envelope).info :=
  forwarded_info_is_raw sanitizeEscape activeOne
    ⟨some "message", some "c1@s5", some "public", some "<x>", none⟩
    activeOne
    [(some 1,
      { tag := "message", fromJid := some "c1@s5", toJid := some "public",
        info := some "<x>" })]
    (some 1,
      { tag := "message", fromJid := some "c1@s5", toJid := some "public",
        info := some "<x>" })
    (by decide) (by decide)

/-- C1 is refuted at a concrete input: with the sanitize capability
behaving as `bleach.clean` does on markup (it escapes the three-character
input '<','x','>' to its HTML-entity form), the routed message's `info`
is the raw inbound value and differs from the sanitized value. -/
theorem forwarded_info_sanitized_cex :
    process_message sanitizeEscape activeOne
        ⟨some "message", some "c1@s5", some "public", some "<x>", none⟩
      = some (activeOne,
          [(some 1,
            { tag := "message", fromJid := some "c1@s5",
              toJid := some "public", info := some "<x>" })]) ∧
    some "<x>" ≠ some (sanitizeEscape "<x>") := by
  constructor
  · decide
  · decide

/-- C8: after a successful login the Session Registry holds, under the
(sanitized) identity, a session whose display name is the `nickname`
stored for that identity in the Credential Store; the success reply
carries that same nickname, and the stored nickname itself is unchanged.
The login request has no display-name field at all (`handle_client` reads
only `jid`, `password` and `publickey` from it), so the result cannot
depend on a supplied display name. -/
theorem login_success_display_name (checkpw : String → String → Bool)
    (clean : String → String) (s : SrvState) (ws : Nat) (j p : String)
    (pk : Option String) (u : ClientRecord)
    (hu : lookup s.store (clean j) = some u)
    (hne : clean j ≠ "") (hlen : (clean j).length ≤ 64)
    (hpne : clean p ≠ "") (hplen : (clean p).length ≤ 64)
    (hauth : authenticate_user checkpw s.store (clean j) (clean p) = true) :
    (handle_login checkpw clean s ws ⟨some j, some p, pk⟩).map
        (fun r => (r.2,
                   (lookup r.1.active (clean j)).map (fun c => c.nickname),
                   (lookup r.1.store (clean j)).map (fun c => c.nickname)))
      = some (.success "Login successful" u.nickname,
              some u.nickname, some u.nickname) := by
  have hlen' : ¬ ((clean j).length > 64) := by omega
  have hplen' : ¬ ((clean p).length > 64) := by omega
  simp [handle_login, hne, hlen', hpne, hplen', hauth,
    add_clients_to_active_connections, hu, lookup_updateEntry]

theorem login_success_display_name_witness :
    (handle_login (fun _ _ => true) (fun s => s) initialState 7
        ⟨some "c1@s5", some "secret", some "PK"⟩).map
        (fun r => (r.2,
                   (lookup r.1.active "c1@s5").map (fun c => c.nickname),
                   (lookup r.1.store "c1@s5").map (fun c => c.nickname)))
      = some (.success "Login successful" "pemba",
              some "pemba", some "pemba") :=
  login_success_display_name (fun _ _ => true) (fun s => s) initialState 7
    "c1@s5" "secret" (some "PK")
    { nickname := "pemba", jid := "c1@s5",
      password :=
        "$2b$12$qWoDtedvx8jurr/2XVex7.raoa7tqIofxPYrx1.oy6qmDpHavkYwa" }
    (by decide) (by decide) (by decide) (by decide) (by decide) (by decide)

/-- C9 (amended): login validation checks the sanitized jid and password
in the order jid-empty, jid-longer-than-64, password-empty,
password-longer-than-64, then authentication, short-circuiting on the
first failure, and each failure sends exactly one error reply; the four
validation messages are the spec's literals prefixed with a star and a
space, while the authentication-failure message is exactly the literal
"Incorrect email and password". -/
theorem login_validation_order (checkpw : String → String → Bool)
    (clean : String → String) (s : SrvState) (ws : Nat) (j p : String)
    (pk : Option String) :
    (clean j = "" →
      handle_login checkpw clean s ws ⟨some j, some p, pk⟩
        = some (s, .error "* JID cannot be empty")) ∧
    (clean j ≠ "" → (clean j).length > 64 →
      handle_login checkpw clean s ws ⟨some j, some p, pk⟩
        = some (s, .error "* JID should be less than 64 characters")) ∧
    (clean j ≠ "" → (clean j).length ≤ 64 → clean p = "" →
      handle_login checkpw clean s ws ⟨some j, some p, pk⟩
        = some (s, .error "* Password cannot be empty")) ∧
    (clean j ≠ "" → (clean j).length ≤ 64 → clean p ≠ "" →
      (clean p).length > 64 →
      handle_login checkpw clean s ws ⟨some j, some p, pk⟩
        = some (s, .error "* Password should be less than 64 characters")) ∧
    (clean j ≠ "" → (clean j).length ≤ 64 → clean p ≠ "" →
      (clean p).length ≤ 64 →
      authenticate_user checkpw s.store (clean j) (clean p) = false →
      handle_login checkpw clean s ws ⟨some j, some p, pk⟩
        = some (s, .error "Incorrect email and password")) := by
  refine ⟨?_, ?_, ?_, ?_, ?_⟩
  · intro h1
    simp [handle_login, h1]
  · intro h1 h2
    simp [handle_login, h1, h2]
  · intro h1 h2 h3
    have h2' : ¬ ((clean j).length > 64) := by omega
    simp [handle_login, h1, h2', h3]
  · intro h1 h2 h3 h4
    have h2' : ¬ ((clean j).length > 64) := by omega
    simp [handle_login, h1, h2', h3, h4]
  · intro h1 h2 h3 h4 h5
    have h2' : ¬ ((clean j).length > 64) := by omega
    have h4' : ¬ ((clean p).length > 64) := by omega
    simp [handle_login, h1, h2', h3, h4', h5]

theorem login_validation_order_witness :
    (handle_login (fun _ _ => false) (fun s => s) initialState 1
        ⟨some "", some "x", none⟩
      = some (initialState, .error "* JID cannot be empty")) ∧
    (handle_login (fun _ _ => false) (fun s => s) initialState 1
        ⟨some (String.mk (List.replicate 65 'a')), some "x", none⟩
      = some (initialState,
          .error "* JID should be less than 64 characters")) ∧
    (handle_login (fun _ _ => false) (fun s => s) initialState 1
        ⟨some "c1@s5", some "", none⟩
      = some (initialState, .error "* Password cannot be empty")) ∧
    (handle_login (fun _ _ => false) (fun s => s) initialState 1
        ⟨some "c1@s5", some (String.mk (List.replicate 65 'a')), none⟩
      = some (initialState,
          .error "* Password should be less than 64 characters")) ∧
    (handle_login (fun _ _ => false) (fun s => s) initialState 1
        ⟨some "c1@s5", some "wrong", none⟩
      = some (initialState, .error "Incorrect email and password")) := by
  refine ⟨?_, ?_, ?_, ?_, ?_⟩
  · exact (login_validation_order (fun _ _ => false) (fun s => s)
      initialState 1 "" "x" none).1 rfl
  · exact (login_validation_order (fun _ _ => false) (fun s => s)
      initialState 1 (String.mk (List.replicate 65 'a')) "x" none).2.1
      (by decide) (by decide)
  · exact (login_validation_order (fun _ _ => false) (fun s => s)
      initialState 1 "c1@s5" "" none).2.2.1 (by decide) (by decide) rfl
  · exact (login_validation_order (fun _ _ => false) (fun s => s)
      initialState 1 "c1@s5" (String.mk (List.replicate 65 'a'))
      none).2.2.2.1 (by decide) (by decide) (by decide) (by decide)
  · exact (login_validation_order (fun _ _ => false) (fun s => s)
      initialState 1 "c1@s5" "wrong" none).2.2.2.2
      (by decide) (by decide) (by decide) (by decide) (by decide)

/-- C9 is refuted on the exact error literals: an empty jid is answered
with the message "* JID cannot be empty", which is not the spec's literal
"JID cannot be empty" (the same star-space prefix appears on all four
validation messages). -/
theorem login_error_literal_cex :
    handle_login (fun _ _ => false) (fun s => s) initialState 1
        ⟨some "", some "x", none⟩
      = some (initialState, .error "* JID cannot be empty") ∧
    "* JID cannot be empty" ≠ "JID cannot be empty" := by
  constructor
  · rfl
  · decide

/-- C2 is refuted at a concrete input: registering a session after the
first successful login mutates the Credential Store entry for that
identity — the `websocket` (and `publickey`) keys are added to the stored
record, so the entry differs from its value at load time. -/
theorem credential_store_mutated_cex :
    (add_clients_to_active_connections initialState "c1@s5" 1 none).map
        (fun p => lookup p.1.store "c1@s5")
      ≠ some (lookup initialState.store "c1@s5") := by decide

/-- C2 (amended): the static fields of every Credential Store entry — the
identity, display name and password hash present at load — are never
modified: registering a session preserves them for every key (it only
adds or overwrites the session keys `websocket` and `publickey` on the
registered identity's entry, because the credential record and the
session record are the same dict), and connection teardown does not touch
the store at all. -/
theorem credential_static_fields_preserved (s : SrvState) (jid : String)
    (ws : Nat) (pk : Option String) (k : String) :
    ((add_clients_to_active_connections s jid ws pk).map
        (fun p => (lookup p.1.store k).map staticFields)
      = (add_clients_to_active_connections s jid ws pk).map
        (fun _ => (lookup s.store k).map staticFields)) ∧
    (∀ jopt, (cleanup_user s jopt).store = s.store) := by
  constructor
  · rcases hl : lookup s.store jid with _ | user
    · simp [add_clients_to_active_connections, hl]
    · by_cases hk : jid = k
      · subst hk
        simp [add_clients_to_active_connections, hl, lookup_updateEntry,
          staticFields]
      · simp [add_clients_to_active_connections, hl, lookup_updateEntry, hk]
  · intro jopt
    cases jopt with
    | none => rfl
    | some jv =>
        simp only [cleanup_user]
        split <;> rfl

/-- C3 is refuted at a concrete input: connection A logs in as c1@s5 on
channel 1, connection B then logs in as c1@s5 on channel 2 (replacing the
session), and when A's teardown runs `cleanup_user` it removes B's newer
session — before A's cleanup the active session for c1@s5 is B's
(channel 2), after it no session for c1@s5 remains. -/
theorem cleanup_removes_later_session_cex :
    ((add_clients_to_active_connections initialState "c1@s5" 1 none).bind
      (fun p => (add_clients_to_active_connections p.1 "c1@s5" 2 none).map
        (fun q => ((lookup q.1.active "c1@s5").map (fun c => c.websocket),
                   lookup (cleanup_user q.1 (some "c1@s5")).active "c1@s5"))))
    = some (some (some 2), none) := by decide

/-- C3 (amended): a session for identity X is destroyed only by an
operation for X itself — `cleanup_user` for X (which every connection
that logged in as X runs at teardown, keyed by identity rather than by
the registering connection, so it removes whatever session is currently
registered for X, even one registered by a later connection) or
replacement by a newer login for X; sessions of every other identity are
left untouched by both operations, and a teardown that has no identity
changes nothing. -/
theorem session_destroyed_only_by_identity (s : SrvState) (jid j : String)
    (ws : Nat) (pk : Option String) :
    (lookup (cleanup_user s (some jid)).active jid = none) ∧
    (j ≠ jid →
      lookup (cleanup_user s (some jid)).active j = lookup s.active j) ∧
    (cleanup_user s none = s) ∧
    (j ≠ jid →
      (add_clients_to_active_connections s jid ws pk).map
          (fun p => lookup p.1.active j)
        = (add_clients_to_active_connections s jid ws pk).map
          (fun _ => lookup s.active j)) := by
  refine ⟨?_, ?_, rfl, ?_⟩
  · simp only [cleanup_user]
    split
    · simp [lookup_removeEntry]
    · rename_i h
      rcases hoption : lookup s.active jid with _ | c
      · rfl
      · rw [hoption] at h
        simp at h
  · intro hj
    simp only [cleanup_user]
    split
    · simp [lookup_removeEntry, Ne.symm hj]
    · rfl
  · intro hj
    rcases hl : lookup s.store jid with _ | user
    · simp [add_clients_to_active_connections, hl]
    · simp [add_clients_to_active_connections, hl, lookup_updateEntry,
        Ne.symm hj]

theorem session_destroyed_only_by_identity_witness :
    (lookup (cleanup_user { store := registered_clients,
                            active := activeTwo } (some "c1@s5")).active
        "c1@s5" = none) ∧
    (lookup (cleanup_user { store := registered_clients,
                            active := activeTwo } (some "c1@s5")).active
        "c2@s5" = lookup activeTwo "c2@s5") ∧
    ((add_clients_to_active_connections
        { store := registered_clients, active := activeTwo }
        "c1@s5" 9 none).map (fun p => lookup p.1.active "c2@s5")
      = (add_clients_to_active_connections
          { store := registered_clients, active := activeTwo }
          "c1@s5" 9 none).map (fun _ => lookup activeTwo "c2@s5")) := by
  refine ⟨?_, ?_, ?_⟩
  · exact (session_destroyed_only_by_identity
      { store := registered_clients, active := activeTwo }
      "c1@s5" "c2@s5" 9 none).1
  · exact (session_destroyed_only_by_identity
      { store := registered_clients, active := activeTwo }
      "c1@s5" "c2@s5" 9 none).2.1 (by decide)
  · exact (session_destroyed_only_by_identity
      { store := registered_clients, active := activeTwo }
      "c1@s5" "c2@s5" 9 none).2.2.2 (by decide)
